import Mathlib

/-!
Verification development for the branch-to-time-entry reconciliation core of
`toggl-track-vscode` (`src/extension.ts`).

The file `src/extension.ts` contains three near-duplicate evolutions of the
`TogglTracker` class.  The final evolution (lines 2574-3312) is the one
instantiated by `activate` (line 3374) and is therefore the authoritative
program; all definitions below are translated from that evolution.  Line
numbers in comments refer to `src/extension.ts`.

Modelling conventions:
- Timestamps (`Date.now()`) are integers (milliseconds).
- JavaScript `null`/`undefined` results are `Option.none`.
- Entry identifiers coming from the Toggl API are positive numbers, so the
  JavaScript truthiness tests `if (this.currentEntryId)` and
  `if (entry && entry.id)` are modelled by `Option.isSome`
  (`some e` stands for a truthy id).
- Every awaited remote HTTP interaction is recorded in an emitted list of
  `RemoteCall`s; the responses the network would produce are passed in as
  explicit arguments (oracles), including a `Bool`/`Option` per fallible
  call standing for its success or failure.
-/

namespace TogglTrack

/-- Remote time entry as reported by the current-entry query
(`GET me/time_entries/current`, extension.ts:2979). -/
structure Entry where
  id : Nat
  description : String
  deriving Repr, DecidableEq

/-- Entry from the recent-entries list (`GET me/time_entries`,
extension.ts:2927).  `duration >= 0` means the entry is stopped; `stop` is
its stop timestamp (only meaningful when stopped). -/
structure RecentEntry where
  id : Nat
  description : String
  duration : Int
  stop : Int
  projectId : Option Nat
  tags : List String
  deriving Repr, DecidableEq

/-- The configuration surface read by the tracker (`togglTrackAuto.*`). -/
structure Config where
  apiToken : Option String
  workspaceId : Option Nat
  projectId : Option Nat
  idleTimeoutMinutes : Option Nat
  deriving Repr, DecidableEq

/-- The mutable fields of the final `TogglTracker` class
(extension.ts:2578-2594) that the reconciliation core reads or writes. -/
structure TrackerState where
  currentBranch : String
  currentEntryId : Option Nat
  lastActivity : Int
  isTracking : Bool
  lastStoppedDescription : String
  lastStoppedTime : Int
  lastStoppedEntryId : Option Nat
  currentDescription : String
  isOnBreak : Bool
  preBreakEntryId : Option Nat
  preBreakDescription : String
  preBreakBranch : String
  deriving Repr, DecidableEq

/-- Field initializers of the class (extension.ts:2578-2594); `lastActivity`
is initialized to `Date.now()`, passed here as `now`. -/
def initialState (now : Int) : TrackerState :=
  { currentBranch := ""
    currentEntryId := none
    lastActivity := now
    isTracking := false
    lastStoppedDescription := ""
    lastStoppedTime := 0
    lastStoppedEntryId := none
    currentDescription := ""
    isOnBreak := false
    preBreakEntryId := none
    preBreakDescription := ""
    preBreakBranch := "" }

/-- One remote interaction of the reconciliation core (Toggl gateway calls
plus the Monday.com task lookup). -/
inductive RemoteCall where
  | getCurrentEntry
  | listRecent
  | taskLookup (ticketId : String)
  | create (description : String) (billable : Bool)
      (projectId : Option Nat) (tags : List String)
  | setRunning (entryId : Nat)
  | stopEntry (entryId : Nat)
  deriving Repr, DecidableEq

/-- A call that starts a time entry (create, or the set-running update). -/
def isStartCall : RemoteCall → Bool
  | RemoteCall.create _ _ _ _ => true
  | RemoteCall.setRunning _ => true
  | _ => false

/-- A call that stops a time entry. -/
def isStopCall : RemoteCall → Bool
  | RemoteCall.stopEntry _ => true
  | _ => false

/-! ### Ticket extractor (extension.ts:1278-1284, used via `extractTicketId`,
extension.ts:2867-2869)

The configured pattern is a JavaScript regular expression; we embed it
abstractly as a function from a string to the JavaScript match result:
`none` for no match, and otherwise the list of captured values
(index 0 the whole match, index `i` the `i`-th capture group, `none` for a
group that did not participate).  `branch.match(regex)[1]` reads index 1,
which in JavaScript yields `undefined` when the pattern has no groups. -/

structure RegexMatcher where
  run : String → Option (List (Option String))

/-- `extractTaskIdFromBranch` (extension.ts:1278-1284):
`const match = branch.match(regex); return match ? match[1] : null;`. -/
def extractTaskIdFromBranch (m : RegexMatcher) (branch : String) : Option String :=
  match m.run branch with
  | none => none
  | some caps => (caps.get? 1).join

/-- Longest run of consecutive digits starting at the first position where at
least 6 consecutive digits begin: the leftmost-greedy match of the default
pattern `(\d{6,})` (extension.ts:1280). -/
def digitRun6 : List Char → Option (List Char)
  | [] => none
  | c :: cs =>
    let run := (c :: cs).takeWhile Char.isDigit
    if 6 ≤ run.length then some run else digitRun6 cs

/-- The default pattern `(\d{6,})` as a matcher: the whole match and its
single capture group are the same digit run. -/
def defaultMatcher : RegexMatcher :=
  ⟨fun b => (digitRun6 b.toList).map (fun r => [some (String.mk r), some (String.mk r)])⟩

/-- Ticket extraction with the default `branchPattern`. -/
def defaultExtract : String → Option String :=
  extractTaskIdFromBranch defaultMatcher

/-! ### Description derivation (extension.ts:3070-3084)

`lookup` is the oracle for `getMondayTaskName` (extension.ts:2871-2912):
the task title for a ticket id, or `none` when Monday returns no item or the
request fails.  JavaScript truthiness of `if (ticketId)` and
`if (taskName)` makes the empty string fall back as well. -/

def deriveDescription (extract lookup : String → Option String) (branch : String) : String :=
  match extract branch with
  | none => branch
  | some tid =>
    if tid = "" then branch
    else
      match lookup tid with
      | some name => if name = "" then "[" ++ tid ++ "] " ++ branch else name
      | none => "[" ++ tid ++ "] " ++ branch

/-- The Monday lookup call emitted while deriving a description (the task
cache of `getMondayTaskName` is modelled as cold, which only affects whether
the lookup call is repeated, never its value). -/
def descCalls (extract : String → Option String) (branch : String) : List RemoteCall :=
  match extract branch with
  | none => []
  | some tid => if tid = "" then [] else [RemoteCall.taskLookup tid]

/-! ### Previous-entry lookup (extension.ts:2915-2970)

`recent` is the oracle for the recent-entries list response (a failed
request behaves like the empty list, since the catch returns `null` exactly
as an empty `find` does). -/

/-- JavaScript truthiness of an optional numeric field (`0` is falsy). -/
def optNatTruthy : Option Nat → Bool
  | none => false
  | some n => decide (n ≠ 0)

/-- `descMatches` (extension.ts:2942-2948): exact match or fuzzy match on
the first 30 characters, with empty strings never matching. -/
def descMatches (entryDesc targetDesc : String) : Bool :=
  if entryDesc = "" || targetDesc = "" then false
  else if entryDesc = targetDesc then true
  else (targetDesc.take 30).isPrefixOf entryDesc
    || (entryDesc.take 30).isPrefixOf targetDesc

/-- A stopped recent entry whose description matches the target
(`e.duration >= 0 && descMatches(e.description, description)`). -/
def isStoppedMatch (description : String) (e : RecentEntry) : Bool :=
  decide (0 ≤ e.duration) && descMatches e.description description

/-- `getPreviousEntry` (extension.ts:2950-2964): first a matching stopped
entry that has a project or tags, else any matching stopped entry. -/
def getPreviousEntry (description : String) (entries : List RecentEntry) :
    Option RecentEntry :=
  match entries.find? (fun e =>
      isStoppedMatch description e
        && (optNatTruthy e.projectId || !e.tags.isEmpty)) with
  | some e => some e
  | none => entries.find? (isStoppedMatch description)

/-! ### stopCurrentEntry (extension.ts:3032-3060) -/

/-- `stopCurrentEntry`.  `_stopOk` is the outcome of the remote PATCH stop
call: the catch only logs, so the local effect is the same either way; but
with a missing api token or workspace id the method returns before touching
any state. -/
def stopCurrentEntry (cfg : Config) (s : TrackerState) (now : Int)
    (_stopOk : Bool) : TrackerState × List RemoteCall :=
  match s.currentEntryId with
  | none => (s, [])
  | some e =>
    if cfg.apiToken.isNone || cfg.workspaceId.isNone then (s, [])
    else
      ({ s with
          lastStoppedEntryId := some e
          lastStoppedDescription := s.currentDescription
          lastStoppedTime := now
          currentEntryId := none
          currentDescription := "" },
        [RemoteCall.stopEntry e])

/-! ### startNewEntry (extension.ts:3062-3164) -/

/-- Ten minutes in milliseconds (`tenMinutesMs`, extension.ts:3099). -/
def tenMinutesMs : Int := 600000

/-- Project id sent in the create payload: the previous entry's project if
truthy, else the configured one; included only when positive
(extension.ts:3066, 3091-3093, 3140-3142). -/
def startProjectArg (cfg : Config) (prev : Option RecentEntry) : Option Nat :=
  let projectId :=
    match prev with
    | some p => if optNatTruthy p.projectId then p.projectId else cfg.projectId
    | none => cfg.projectId
  match projectId with
  | some q => if 0 < q then some q else none
  | none => none

/-- Tags sent in the create payload (extension.ts:3094-3096, 3144-3146). -/
def startTagsArg (prev : Option RecentEntry) : List String :=
  match prev with
  | some p => if p.tags.isEmpty then [] else p.tags
  | none => []

/-- The POST create call issued by `startNewEntry` (extension.ts:3130-3154):
always billable, with project and tags copied from the previous entry. -/
def createCall (cfg : Config) (extract lookup : String → Option String)
    (branch : String) (recent : List RecentEntry) : RemoteCall :=
  let description := deriveDescription extract lookup branch
  let prev := getPreviousEntry description recent
  RemoteCall.create description true (startProjectArg cfg prev) (startTagsArg prev)

/-- Local state after the create attempt: on success (`some newId`) the new
entry is recorded, on failure the state is untouched
(extension.ts:3156-3163). -/
def createdState (s : TrackerState) (description : String) :
    Option Nat → TrackerState
  | some newId =>
    { s with currentEntryId := some newId, currentDescription := description }
  | none => s

/-- `startNewEntry`.  Oracles: `lookup` for the Monday task name, `recent`
for the recent-entries response, `setRunningOk` for the PUT set-running
update (its success response echoes the updated entry, so the recorded id is
the previous entry's id), `createResult` for the POST create (`some id` on
success). -/
def startNewEntry (cfg : Config) (extract lookup : String → Option String)
    (s : TrackerState) (branch : String) (recent : List RecentEntry)
    (now : Int) (setRunningOk : Bool) (createResult : Option Nat) :
    TrackerState × List RemoteCall :=
  if cfg.apiToken.isNone || cfg.workspaceId.isNone then (s, [])
  else
    let description := deriveDescription extract lookup branch
    let dCalls := descCalls extract branch
    match getPreviousEntry description recent with
    | some p =>
      if now - p.stop < tenMinutesMs then
        if setRunningOk then
          ({ s with currentEntryId := some p.id, currentDescription := description },
            dCalls ++ [RemoteCall.listRecent, RemoteCall.setRunning p.id])
        else
          (createdState s description createResult,
            dCalls ++ [RemoteCall.listRecent, RemoteCall.setRunning p.id,
              createCall cfg extract lookup branch recent])
      else
        (createdState s description createResult,
          dCalls ++ [RemoteCall.listRecent,
            createCall cfg extract lookup branch recent])
    | none =>
      (createdState s description createResult,
        dCalls ++ [RemoteCall.listRecent,
          createCall cfg extract lookup branch recent])

/-! ### checkBranch (extension.ts:2991-3030) -/

/-- Adoption of the remote running entry into local state
(extension.ts:3016-3019). -/
def adoptRemote (s : TrackerState) (remoteCurrent : Option Entry) : TrackerState :=
  match remoteCurrent with
  | some e => { s with currentEntryId := some e.id, currentDescription := e.description }
  | none => s

/-- Forced re-evaluation after an idle pause (extension.ts:3009-3011): with
no entry believed running and activity within the last 30 seconds,
`currentBranch` is reset to the empty string so that the branch comparison
below restarts tracking. -/
def forceRestart (s : TrackerState) (now : Int) : TrackerState :=
  if s.currentEntryId.isNone && decide (now - s.lastActivity < 30000)
  then { s with currentBranch := "" } else s

/-- State after the branch-change path has queried and adopted the remote
entry (when an api token exists) and recorded the new branch
(extension.ts:3015-3021). -/
def adoptedState (cfg : Config) (s1 : TrackerState) (branch : String)
    (remoteCurrent : Option Entry) : TrackerState :=
  { adoptRemote s1 (if cfg.apiToken.isSome then remoteCurrent else none) with
      currentBranch := branch }

/-- The branch-change path of a tick (extension.ts:3013-3029): query the
remote current entry (only possible with an api token), adopt a reported
running entry, record the new branch, then stop-then-start. -/
def branchChangeStep (cfg : Config) (extract lookup : String → Option String)
    (s1 : TrackerState) (branch : String) (remoteCurrent : Option Entry)
    (recent : List RecentEntry) (now : Int) (setRunningOk : Bool)
    (createResult : Option Nat) (stopOk : Bool) :
    TrackerState × List RemoteCall :=
  let queryCalls :=
    if cfg.apiToken.isSome then [RemoteCall.getCurrentEntry] else []
  let s3 := adoptedState cfg s1 branch remoteCurrent
  let stopped := stopCurrentEntry cfg s3 now stopOk
  let started := startNewEntry cfg extract lookup stopped.1 branch recent
    now setRunningOk createResult
  (started.1, queryCalls ++ stopped.2 ++ started.2)

/-- One branch-check tick.  `branchObserved` is what `getCurrentBranch`
returned (`none` for no workspace or a git failure); an empty branch string
is falsy in JavaScript and is handled like `none`.  `remoteCurrent` is what
the current-entry query would report (the query is only issued, and its
answer only used, on the branch-change path, and only with an api token). -/
def checkBranch (cfg : Config) (extract lookup : String → Option String)
    (s : TrackerState) (branchObserved : Option String)
    (remoteCurrent : Option Entry) (recent : List RecentEntry) (now : Int)
    (setRunningOk : Bool) (createResult : Option Nat) (stopOk : Bool) :
    TrackerState × List RemoteCall :=
  if !s.isTracking then (s, [])
  else
    match branchObserved with
    | none =>
      if s.currentEntryId.isSome then stopCurrentEntry cfg s now stopOk
      else (s, [])
    | some branch =>
      if branch = "" then
        if s.currentEntryId.isSome then stopCurrentEntry cfg s now stopOk
        else (s, [])
      else if branch = s.currentBranch && s.currentEntryId.isSome then (s, [])
      else
        let s1 := forceRestart s now
        if branch = s1.currentBranch then (s1, [])
        else branchChangeStep cfg extract lookup s1 branch remoteCurrent
          recent now setRunningOk createResult stopOk

/-! ### checkIdle (extension.ts:2840-2849) -/

/-- `config.get('idleTimeoutMinutes') || 5` (0 is falsy). -/
def idleTimeoutMinutesOf (cfg : Config) : Nat :=
  match cfg.idleTimeoutMinutes with
  | some n => if n = 0 then 5 else n
  | none => 5

/-- One idle-check tick. -/
def checkIdle (cfg : Config) (s : TrackerState) (now : Int) (stopOk : Bool) :
    TrackerState × List RemoteCall :=
  if decide ((idleTimeoutMinutesOf cfg : Int) * 60000 < now - s.lastActivity)
      && s.currentEntryId.isSome
  then stopCurrentEntry cfg s now stopOk
  else (s, [])

/-! ### Break sub-flow (extension.ts:3199-3293) -/

/-- `breakType.replace(/^[^\s]+\s/, '')` (extension.ts:3234): drop a leading
run of non-whitespace characters together with the single following
whitespace character; no change when the string does not start that way. -/
def stripEmojiDescription (bt : String) : String :=
  let cs := bt.toList
  let pre := cs.takeWhile (fun c => !c.isWhitespace)
  match pre, cs.drop pre.length with
  | [], _ => bt
  | _, [] => bt
  | _, _ :: tail => String.mk tail

/-- `startBreak` (extension.ts:3207-3264).  `breakType` is the quick-pick
choice (`none` when dismissed); `createResult` is the outcome of the break
entry creation (non-billable POST). -/
def startBreak (cfg : Config) (s : TrackerState) (breakType : Option String)
    (now : Int) (stopOk : Bool) (createResult : Option Nat) :
    TrackerState × List RemoteCall :=
  if cfg.apiToken.isNone || cfg.workspaceId.isNone then (s, [])
  else
    match breakType with
    | none => (s, [])
    | some bt =>
      let s1 := { s with
        preBreakEntryId := s.currentEntryId
        preBreakDescription := s.currentDescription
        preBreakBranch := s.currentBranch }
      let stopped := stopCurrentEntry cfg s1 now stopOk
      let breakDescription := stripEmojiDescription bt
      let callList := stopped.2 ++ [RemoteCall.create breakDescription false none []]
      match createResult with
      | some newId =>
        ({ stopped.1 with
            currentEntryId := some newId
            currentDescription := breakDescription
            isOnBreak := true
            isTracking := false },
          callList)
      | none => (stopped.1, callList)

/-- `endBreak` (extension.ts:3266-3293): stop the break entry, resume
tracking, force a branch re-evaluation when a pre-break branch was saved,
then clear the pre-break snapshot.  The trailing arguments are the oracles
of the embedded `checkBranch` call. -/
def endBreak (cfg : Config) (extract lookup : String → Option String)
    (s : TrackerState) (now : Int) (stopOk : Bool)
    (branchObserved : Option String) (remoteCurrent : Option Entry)
    (recent : List RecentEntry) (setRunningOk : Bool)
    (createResult : Option Nat) : TrackerState × List RemoteCall :=
  if cfg.apiToken.isNone || cfg.workspaceId.isNone then (s, [])
  else
    let stopped := stopCurrentEntry cfg s now stopOk
    let s2 := { stopped.1 with isOnBreak := false, isTracking := true }
    if s2.preBreakBranch = "" then
      ({ s2 with
          preBreakEntryId := none
          preBreakDescription := ""
          preBreakBranch := "" },
        stopped.2)
    else
      let s3 := { s2 with currentBranch := "" }
      let checked := checkBranch cfg extract lookup s3 branchObserved
        remoteCurrent recent now setRunningOk createResult stopOk
      ({ checked.1 with
          preBreakEntryId := none
          preBreakDescription := ""
          preBreakBranch := "" },
        stopped.2 ++ checked.2)

/-! ### Sequences of branch-check ticks -/

/-- The oracle inputs of one branch-check tick. -/
structure TickInput where
  branchObserved : Option String
  remoteCurrent : Option Entry
  recent : List RecentEntry
  now : Int
  setRunningOk : Bool
  createResult : Option Nat
  stopOk : Bool

/-- Run a sequence of branch-check ticks, collecting every remote call. -/
def runTicks (cfg : Config) (extract lookup : String → Option String) :
    TrackerState → List TickInput → TrackerState × List RemoteCall
  | s, [] => (s, [])
  | s, t :: ts =>
    let first := checkBranch cfg extract lookup s t.branchObserved
      t.remoteCurrent t.recent t.now t.setRunningOk t.createResult t.stopOk
    let rest := runTicks cfg extract lookup first.1 ts
    (rest.1, first.2 ++ rest.2)

/-! ### Tick-overlap model (extension.ts:2757, 2991-2994)

`setInterval(() => this.checkBranch(), 15000)` fires regardless of whether a
previous (asynchronous) `checkBranch` invocation is still awaiting a remote
call.  The only admission check a new activation performs is
`if (!this.isTracking) return;` (line 2992), evaluated before the first
suspension point (`await this.getCurrentBranch()`, line 2994), which itself
precedes every state write; `TogglTracker` has no in-progress flag among its
fields (lines 2575-2599). -/

/-- The only gate a newly fired branch-check activation evaluates. -/
def tickAdmissionGuard (s : TrackerState) : Bool := s.isTracking

/-- Scheduler view: tracker state plus the number of branch-check
activations started and not yet finished. -/
structure SchedulerState where
  tracker : TrackerState
  inFlight : Nat
  deriving Repr, DecidableEq

/-- One interval-timer fire: the new activation either passes the admission
gate and joins the in-flight activations, or returns at once. -/
def timerFire (st : SchedulerState) : SchedulerState :=
  if tickAdmissionGuard st.tracker then { st with inFlight := st.inFlight + 1 }
  else st

/-! ### Local-state pairing invariant -/

/-- The pairing asserted by claim C10: a session that believes nothing is
running carries the empty description. -/
def descInvariant (s : TrackerState) : Prop :=
  s.currentEntryId = none → s.currentDescription = ""

/-! ### Concrete fixtures used by witnesses and counterexamples -/

/-- A fully configured session. -/
def cfgA : Config :=
  { apiToken := some "token", workspaceId := some 1, projectId := none,
    idleTimeoutMinutes := none }

/-- A configured api token but no workspace id (reachable: `start` only
requires the token, and adoption in `checkBranch` can set `currentEntryId`
without a workspace id). -/
def cfgNoWs : Config :=
  { apiToken := some "token", workspaceId := none, projectId := none,
    idleTimeoutMinutes := none }

/-- A session tracking branch `main` with entry 1 believed running. -/
def steadyState : TrackerState :=
  { currentBranch := "main"
    currentEntryId := some 1
    lastActivity := 0
    isTracking := true
    lastStoppedDescription := ""
    lastStoppedTime := 0
    lastStoppedEntryId := none
    currentDescription := "main"
    isOnBreak := false
    preBreakEntryId := none
    preBreakDescription := ""
    preBreakBranch := "" }

/-- A stopped entry for `main` with a project, stopped 20 minutes before
time 2000000. -/
def oldMainEntry : RecentEntry :=
  { id := 1, description := "main", duration := 100, stop := 800000,
    projectId := some 7, tags := [] }

/-- A stopped entry for `main` without project or tags, stopped 1 minute
before time 2000000. -/
def freshMainEntry : RecentEntry :=
  { id := 2, description := "main", duration := 50, stop := 1940000,
    projectId := none, tags := [] }

/-- Recent-entries response containing both `main` entries, oldest first. -/
def c2Recent : List RecentEntry := [oldMainEntry, freshMainEntry]

/-- A session tracking branch `feat/123456-x` with entry 1 believed
running. -/
def trackingFeatState : TrackerState :=
  { steadyState with
      currentBranch := "feat/123456-x"
      currentDescription := "[123456] feat/123456-x" }

/-! ## Theorems -/

/-- Steady-state fast path (extension.ts:3004-3006): a tick that observes
the unchanged, non-empty current branch while an entry is believed running
returns before any remote interaction and leaves the state untouched. -/
theorem checkBranch_steady (cfg : Config) (extract lookup : String → Option String)
    (s : TrackerState) (rc : Option Entry) (recent : List RecentEntry)
    (now : Int) (sOk : Bool) (cRes : Option Nat) (stOk : Bool)
    (ht : s.isTracking = true) (he : s.currentEntryId.isSome = true)
    (hne : s.currentBranch ≠ "") :
    checkBranch cfg extract lookup s (some s.currentBranch) rc recent now
      sOk cRes stOk = (s, []) := by
  simp [checkBranch, ht, he, hne]

/-- C3: for every sequence of branch-check ticks that observe the unchanged
current branch while an entry is already believed running, no remote calls
of any kind are issued and the session state never changes. -/
theorem c3_idempotent_steady_state (cfg : Config)
    (extract lookup : String → Option String) (s : TrackerState)
    (inputs : List TickInput)
    (ht : s.isTracking = true) (he : s.currentEntryId.isSome = true)
    (hne : s.currentBranch ≠ "")
    (hobs : ∀ t ∈ inputs, t.branchObserved = some s.currentBranch) :
    runTicks cfg extract lookup s inputs = (s, []) := by
  induction inputs with
  | nil => rfl
  | cons t ts ih =>
    have h1 : checkBranch cfg extract lookup s t.branchObserved t.remoteCurrent
        t.recent t.now t.setRunningOk t.createResult t.stopOk = (s, []) := by
      rw [hobs t (List.mem_cons_self t ts)]
      exact checkBranch_steady cfg extract lookup s t.remoteCurrent t.recent
        t.now t.setRunningOk t.createResult t.stopOk ht he hne
    have h2 : runTicks cfg extract lookup s ts = (s, []) :=
      ih (fun t' ht' => hobs t' (List.mem_cons_of_mem t ht'))
    simp [runTicks, h1, h2]

/-- C3 witness: one concrete steady tick on the `main` session issues no
remote calls. -/
theorem c3_idempotent_steady_state_witness :
    runTicks cfgA (fun _ => none) (fun _ => none) steadyState
      [{ branchObserved := some "main", remoteCurrent := some ⟨2, "other"⟩,
         recent := c2Recent, now := 100, setRunningOk := true,
         createResult := some 9, stopOk := true }] = (steadyState, []) :=
  c3_idempotent_steady_state cfgA (fun _ => none) (fun _ => none) steadyState
    _ (by decide) (by decide) (by decide)
    (by intro t ht; simp at ht; subst ht; rfl)

/-- C1 (amended): when, at a branch-check tick, the observed branch equals
the non-empty `currentBranch` and an entry E1 is already believed running,
the tick returns on the steady-state fast path: the remote current-entry
query is never issued, no entry is adopted (E1 stays current), and no stop
or create call is made.  Remote adoption happens only on the branch-change
path. -/
theorem c1_steady_no_adoption (cfg : Config)
    (extract lookup : String → Option String) (s : TrackerState)
    (rc : Option Entry) (recent : List RecentEntry) (now : Int)
    (sOk : Bool) (cRes : Option Nat) (stOk : Bool)
    (ht : s.isTracking = true) (he : s.currentEntryId.isSome = true)
    (hne : s.currentBranch ≠ "") :
    checkBranch cfg extract lookup s (some s.currentBranch) rc recent now
      sOk cRes stOk = (s, []) :=
  checkBranch_steady cfg extract lookup s rc recent now sOk cRes stOk ht he hne

/-- C1 witness: concrete steady tick with a different remote entry running;
the tick is a pure no-op. -/
theorem c1_steady_no_adoption_witness :
    checkBranch cfgA (fun _ => none) (fun _ => none) steadyState (some "main")
      (some ⟨2, "other work"⟩) [] 100 true (some 9) true = (steadyState, []) :=
  c1_steady_no_adoption cfgA (fun _ => none) (fun _ => none) steadyState
    (some ⟨2, "other work"⟩) [] 100 true (some 9) true
    (by decide) (by decide) (by decide)

/-- C1 counterexample: with the observed branch equal to `currentBranch`
(`"main"`) and the remote reporting running entry 2 while the session
believes entry 1 is running, the claim requires the tick to adopt entry 2
and its description; the code keeps entry 1 (the query is not even
issued). -/
theorem c1_claim_counterexample :
    ¬ (((checkBranch cfgA (fun _ => none) (fun _ => none) steadyState
          (some "main") (some ⟨2, "other work"⟩) [] 100 true (some 9)
          true).1.currentEntryId = some 2)
        ∧ ((checkBranch cfgA (fun _ => none) (fun _ => none) steadyState
          (some "main") (some ⟨2, "other work"⟩) [] 100 true (some 9)
          true).1.currentDescription = "other work")) := by
  decide

/-- C6 (amended): for every invocation of `stopCurrentEntry` with a
non-null `currentEntryId`, provided the api token and workspace id are
configured, and whether the remote stop call succeeds or fails (`stopOk` is
universally quantified and unused), the operation clears the local running
belief and records the stopped entry's id, description and stop time in the
`lastStopped` memory, emitting exactly the one remote stop call.  With a
missing api token or workspace id the invocation is a no-op instead. -/
theorem c6_stop_local_effect (cfg : Config) (s : TrackerState) (now : Int)
    (stopOk : Bool) (e : Nat) (tk : String) (wk : Nat)
    (htok : cfg.apiToken = some tk) (hws : cfg.workspaceId = some wk)
    (he : s.currentEntryId = some e) :
    stopCurrentEntry cfg s now stopOk =
      ({ s with
          lastStoppedEntryId := some e
          lastStoppedDescription := s.currentDescription
          lastStoppedTime := now
          currentEntryId := none
          currentDescription := "" },
        [RemoteCall.stopEntry e]) := by
  simp [stopCurrentEntry, he, htok, hws]

/-- C6 witness: concrete stop of entry 1 on the `main` session with a
failing remote call still clears local state and records `lastStopped`. -/
theorem c6_stop_local_effect_witness :
    stopCurrentEntry cfgA steadyState 50 false =
      ({ steadyState with
          lastStoppedEntryId := some 1
          lastStoppedDescription := "main"
          lastStoppedTime := 50
          currentEntryId := none
          currentDescription := "" },
        [RemoteCall.stopEntry 1]) :=
  c6_stop_local_effect cfgA steadyState 50 false 1 "token" 1 rfl rfl rfl

/-- C6 counterexample: with entry 1 believed running but the workspace id
unconfigured, `stopCurrentEntry` returns before clearing anything, so the
local running belief is NOT cleared as the claim requires. -/
theorem c6_claim_counterexample :
    ¬ ((stopCurrentEntry cfgNoWs steadyState 7 true).1.currentEntryId = none) := by
  decide

/-- C2 (amended): the continuation decision of `startNewEntry`
(extension.ts:3086-3128) is taken on the entry selected by
`getPreviousEntry` (first stopped recent entry matching the derived
description exactly or by 30-character prefix, preferring entries with a
project or tags): if that entry stopped less than 10 minutes ago the engine
issues the set-running update on it (with create only as fallback when the
update fails); if it stopped 10 or more minutes ago, or no entry matches,
the engine calls create. -/
theorem c2_continuation_window (cfg : Config)
    (extract lookup : String → Option String) (s : TrackerState)
    (branch : String) (recent : List RecentEntry) (now : Int) (sOk : Bool)
    (cRes : Option Nat) (tk : String) (wk : Nat)
    (htok : cfg.apiToken = some tk) (hws : cfg.workspaceId = some wk) :
    (∀ p, getPreviousEntry (deriveDescription extract lookup branch) recent = some p →
        now - p.stop < tenMinutesMs → sOk = true →
        (startNewEntry cfg extract lookup s branch recent now sOk cRes).2 =
          descCalls extract branch
            ++ [RemoteCall.listRecent, RemoteCall.setRunning p.id])
    ∧ (∀ p, getPreviousEntry (deriveDescription extract lookup branch) recent = some p →
        now - p.stop < tenMinutesMs → sOk = false →
        (startNewEntry cfg extract lookup s branch recent now sOk cRes).2 =
          descCalls extract branch
            ++ [RemoteCall.listRecent, RemoteCall.setRunning p.id,
                createCall cfg extract lookup branch recent])
    ∧ (∀ p, getPreviousEntry (deriveDescription extract lookup branch) recent = some p →
        tenMinutesMs ≤ now - p.stop →
        (startNewEntry cfg extract lookup s branch recent now sOk cRes).2 =
          descCalls extract branch
            ++ [RemoteCall.listRecent, createCall cfg extract lookup branch recent])
    ∧ (getPreviousEntry (deriveDescription extract lookup branch) recent = none →
        (startNewEntry cfg extract lookup s branch recent now sOk cRes).2 =
          descCalls extract branch
            ++ [RemoteCall.listRecent, createCall cfg extract lookup branch recent]) := by
  refine ⟨?_, ?_, ?_, ?_⟩
  · intro p hp hw hs
    subst hs
    simp [startNewEntry, htok, hws, hp, hw]
  · intro p hp hw hs
    subst hs
    simp [startNewEntry, htok, hws, hp, hw]
  · intro p hp hw
    simp [startNewEntry, htok, hws, hp, not_lt.mpr hw]
  · intro hp
    simp [startNewEntry, htok, hws, hp]

/-- C2 witness: with only the one-minute-old stopped `main` entry in the
recent list, a start for `main` issues the set-running update on it and no
create call. -/
theorem c2_continuation_window_witness :
    getPreviousEntry (deriveDescription (fun _ => none) (fun _ => none) "main")
        [freshMainEntry] = some freshMainEntry
    ∧ (2000000 : Int) - freshMainEntry.stop < tenMinutesMs
    ∧ (startNewEntry cfgA (fun _ => none) (fun _ => none) steadyState "main"
        [freshMainEntry] 2000000 true (some 9)).2 =
      descCalls (fun _ => none) "main"
        ++ [RemoteCall.listRecent, RemoteCall.setRunning freshMainEntry.id] :=
  ⟨by decide, by decide,
    (c2_continuation_window cfgA (fun _ => none) (fun _ => none) steadyState
        "main" [freshMainEntry] 2000000 true (some 9) "token" 1 rfl rfl).1
      freshMainEntry (by decide) (by decide) rfl⟩

/-- C2 counterexample: the recent list holds a stopped `main` entry with a
project (20 minutes old) and a fresher stopped `main` entry (1 minute old).
An entry with the started description was stopped within the 10-minute
window, yet the engine issues no set-running update on it and creates a new
entry instead, because the project-preferring lookup selects the older
entry. -/
theorem c2_claim_counterexample :
    freshMainEntry ∈ c2Recent
    ∧ freshMainEntry.description
        = deriveDescription (fun _ => none) (fun _ => none) "main"
    ∧ 0 ≤ freshMainEntry.duration
    ∧ (2000000 : Int) - freshMainEntry.stop < tenMinutesMs
    ∧ RemoteCall.setRunning freshMainEntry.id ∉
        (startNewEntry cfgA (fun _ => none) (fun _ => none) steadyState "main"
          c2Recent 2000000 true (some 9)).2
    ∧ createCall cfgA (fun _ => none) (fun _ => none) "main" c2Recent ∈
        (startNewEntry cfgA (fun _ => none) (fun _ => none) steadyState "main"
          c2Recent 2000000 true (some 9)).2 := by
  decide

/-- C5: description derivation on the spec's concrete cases.  With the
default 6-or-more-digits pattern: a successful task lookup yields exactly
the task title; a failed lookup yields `[ticketId] branch`; a branch
without a ticket identifier yields the bare branch name whatever the lookup
does. -/
theorem c5_description_derivation :
    deriveDescription defaultExtract
        (fun tid => if tid = "4176868"
          then some "Backend: Acomba temporary payroll format" else none)
        "feat/4176868-acomba-export"
      = "Backend: Acomba temporary payroll format"
    ∧ deriveDescription defaultExtract (fun _ => none)
        "feat/4176868-acomba-export"
      = "[4176868] feat/4176868-acomba-export"
    ∧ ∀ lookup : String → Option String,
        deriveDescription defaultExtract lookup "main" = "main" := by
  refine ⟨by decide, by decide, ?_⟩
  intro lookup
  have h : defaultExtract "main" = none := by decide
  simp [deriveDescription, h]

/-- C8: the ticket extractor is the pure function returning the first
capture group of the match result (`none` when the pattern does not match),
and for every pattern with zero capture groups it returns `none` (the
JavaScript `match[1]` on a groupless match is `undefined`, not a crash and
not the spurious whole match). -/
theorem c8_extractor_safe (m : RegexMatcher) (branch : String) :
    (m.run branch = none → extractTaskIdFromBranch m branch = none)
    ∧ (∀ caps, m.run branch = some caps →
        extractTaskIdFromBranch m branch = (caps.get? 1).join)
    ∧ ((∀ b caps, m.run b = some caps → caps.length ≤ 1) →
        extractTaskIdFromBranch m branch = none) := by
  refine ⟨?_, ?_, ?_⟩
  · intro h
    simp [extractTaskIdFromBranch, h]
  · intro caps h
    simp [extractTaskIdFromBranch, h]
  · intro h
    cases hm : m.run branch with
    | none => simp [extractTaskIdFromBranch, hm]
    | some caps =>
      have hlen : caps.length ≤ 1 := h branch caps hm
      have hget : caps.get? 1 = none := List.get?_eq_none.mpr hlen
      simp only [extractTaskIdFromBranch, hm]
      rw [hget]
      rfl

/-- C8 witness: a groupless always-matching pattern extracts no ticket from
a concrete branch. -/
theorem c8_extractor_safe_witness :
    (∀ b caps, (RegexMatcher.mk (fun x => some [some x])).run b = some caps →
        caps.length ≤ 1)
    ∧ extractTaskIdFromBranch (RegexMatcher.mk (fun x => some [some x]))
        "feature/login" = none :=
  ⟨fun _ caps h => by
      simp only [Option.some.injEq] at h
      simp [← h],
    (c8_extractor_safe (RegexMatcher.mk (fun x => some [some x]))
        "feature/login").2.2
      (fun _ caps h => by
        simp only [Option.some.injEq] at h
        simp [← h])⟩

/-- C9: the admission gate of a newly fired branch-check activation is the
`isTracking` test alone, so a timer fire arriving while one activation is
already in flight admits a second concurrent activation: the mandated
at-most-one-tick serialization does not hold. -/
theorem c9_tick_overlap :
    ∃ st : SchedulerState, 1 ≤ st.inFlight
      ∧ tickAdmissionGuard st.tracker = true
      ∧ (timerFire st).inFlight = 2 := by
  refine ⟨⟨{ initialState 0 with isTracking := true }, 1⟩, ?_, ?_, ?_⟩ <;> decide

/-- On the branch-change conditions, a tick is exactly the adoption,
stop-then-start step applied after the idle force-restart adjustment. -/
theorem checkBranch_transition (cfg : Config)
    (extract lookup : String → Option String) (s : TrackerState) (b : String)
    (rc : Option Entry) (recent : List RecentEntry) (now : Int) (sOk : Bool)
    (cRes : Option Nat) (stOk : Bool)
    (ht : s.isTracking = true) (hne : b ≠ "") (hch : b ≠ s.currentBranch) :
    checkBranch cfg extract lookup s (some b) rc recent now sOk cRes stOk =
      branchChangeStep cfg extract lookup (forceRestart s now) b rc recent
        now sOk cRes stOk := by
  have hfr : ¬ (b = (forceRestart s now).currentBranch) := by
    unfold forceRestart
    split
    · simpa using hne
    · exact hch
  simp [checkBranch, ht, hne, hch, hfr]

/-- Members of the Monday-lookup call list are neither stop nor start
calls. -/
theorem descCalls_not_stop_not_start (extract : String → Option String)
    (branch : String) :
    ∀ c ∈ descCalls extract branch, isStopCall c = false ∧ isStartCall c = false := by
  intro c hc
  unfold descCalls at hc
  split at hc
  · cases hc
  · split at hc
    · cases hc
    · simp at hc
      subst hc
      exact ⟨rfl, rfl⟩

/-- The stop operation emits no start calls. -/
theorem stopCurrentEntry_calls_not_start (cfg : Config) (s : TrackerState)
    (now : Int) (ok : Bool) :
    ∀ c ∈ (stopCurrentEntry cfg s now ok).2, isStartCall c = false := by
  intro c hc
  unfold stopCurrentEntry at hc
  split at hc
  · cases hc
  · split at hc
    · cases hc
    · simp at hc
      subst hc
      rfl

/-- With an entry believed running and a configured session, the stop
operation emits exactly the one remote stop call for it. -/
theorem stopCurrentEntry_calls_of_some (cfg : Config) (s : TrackerState)
    (now : Int) (ok : Bool) (e : Nat) (tk : String) (wk : Nat)
    (htok : cfg.apiToken = some tk) (hws : cfg.workspaceId = some wk)
    (he : s.currentEntryId = some e) :
    (stopCurrentEntry cfg s now ok).2 = [RemoteCall.stopEntry e] := by
  simp [stopCurrentEntry, he, htok, hws]

/-- The start operation emits no stop calls. -/
theorem startNewEntry_calls_not_stop (cfg : Config)
    (extract lookup : String → Option String) (s : TrackerState)
    (branch : String) (recent : List RecentEntry) (now : Int) (sOk : Bool)
    (cRes : Option Nat) :
    ∀ c ∈ (startNewEntry cfg extract lookup s branch recent now sOk cRes).2,
      isStopCall c = false := by
  intro c hc
  simp only [startNewEntry] at hc
  split at hc
  · cases hc
  · split at hc
    · split at hc
      · split at hc
        · rcases List.mem_append.mp hc with h | h
          · exact (descCalls_not_stop_not_start extract branch c h).1
          · simp at h
            rcases h with h | h <;> subst h <;> rfl
        · rcases List.mem_append.mp hc with h | h
          · exact (descCalls_not_stop_not_start extract branch c h).1
          · simp at h
            rcases h with h | h | h
            · subst h; rfl
            · subst h; rfl
            · subst h; rfl
      · rcases List.mem_append.mp hc with h | h
        · exact (descCalls_not_stop_not_start extract branch c h).1
        · simp at h
          rcases h with h | h
          · subst h; rfl
          · subst h; rfl
    · rcases List.mem_append.mp hc with h | h
      · exact (descCalls_not_stop_not_start extract branch c h).1
      · simp at h
        rcases h with h | h
        · subst h; rfl
        · subst h; rfl

/-- In a concatenation whose first part holds no start calls and whose
second part holds no stop calls, every stop call sits strictly before every
start call. -/
theorem stop_before_start_append (l1 l2 : List RemoteCall)
    (h1 : ∀ c ∈ l1, isStartCall c = false)
    (h2 : ∀ c ∈ l2, isStopCall c = false) :
    ∀ i j ci cj, (l1 ++ l2).get? i = some ci → (l1 ++ l2).get? j = some cj →
      isStartCall ci = true → isStopCall cj = true → j < i := by
  intro i j ci cj hi hj hsi hsj
  rcases Nat.lt_or_ge i l1.length with hil | hil
  · rw [List.get?_append hil] at hi
    exact absurd hsi (by simp [h1 ci (List.get?_mem hi)])
  · rcases Nat.lt_or_ge j l1.length with hjl | hjl
    · omega
    · rw [List.get?_append_right hjl] at hj
      exact absurd hsj (by simp [h2 cj (List.get?_mem hj)])

/-- With no entry believed running the force-restart adjustment only resets
`currentBranch`; with an entry believed running it does nothing. -/
theorem forceRestart_of_some (s : TrackerState) (now : Int) (e : Nat)
    (he : s.currentEntryId = some e) : forceRestart s now = s := by
  simp [forceRestart, he]

/-- C7: on a branch transition (observed non-empty branch different from
`currentBranch`, tracking on, session configured), the tick is exactly the
stop-then-start step; in its emitted remote calls every stop call precedes
every start (create or set-running) call strictly; and whenever an entry is
believed running locally or reported running remotely, a stop call is
actually issued before the start. -/
theorem c7_stop_before_start (cfg : Config)
    (extract lookup : String → Option String) (s : TrackerState) (b : String)
    (rc : Option Entry) (recent : List RecentEntry) (now : Int) (sOk : Bool)
    (cRes : Option Nat) (stOk : Bool) (tk : String) (wk : Nat)
    (htok : cfg.apiToken = some tk) (hws : cfg.workspaceId = some wk)
    (ht : s.isTracking = true) (hne : b ≠ "") (hch : b ≠ s.currentBranch) :
    (checkBranch cfg extract lookup s (some b) rc recent now sOk cRes stOk =
        branchChangeStep cfg extract lookup (forceRestart s now) b rc recent
          now sOk cRes stOk)
    ∧ (∀ i j ci cj,
        (checkBranch cfg extract lookup s (some b) rc recent now sOk cRes
          stOk).2.get? i = some ci →
        (checkBranch cfg extract lookup s (some b) rc recent now sOk cRes
          stOk).2.get? j = some cj →
        isStartCall ci = true → isStopCall cj = true → j < i)
    ∧ ((s.currentEntryId.isSome = true ∨ rc.isSome = true) →
        ∃ e, RemoteCall.stopEntry e ∈
          (checkBranch cfg extract lookup s (some b) rc recent now sOk cRes
            stOk).2) := by
  have htr := checkBranch_transition cfg extract lookup s b rc recent now
    sOk cRes stOk ht hne hch
  have hshape : (branchChangeStep cfg extract lookup (forceRestart s now) b rc
      recent now sOk cRes stOk).2 =
      ((if cfg.apiToken.isSome then [RemoteCall.getCurrentEntry] else [])
          ++ (stopCurrentEntry cfg
            (adoptedState cfg (forceRestart s now) b rc) now stOk).2)
        ++ (startNewEntry cfg extract lookup
            (stopCurrentEntry cfg
              (adoptedState cfg (forceRestart s now) b rc) now stOk).1
            b recent now sOk cRes).2 := by
    simp [branchChangeStep, List.append_assoc]
  have hq : cfg.apiToken.isSome = true := by simp [htok]
  refine ⟨htr, ?_, ?_⟩
  · rw [htr, hshape]
    apply stop_before_start_append
    · intro c hc
      simp only [hq, if_true] at hc
      rcases List.mem_append.mp hc with h | h
      · simp at h
        subst h
        rfl
      · exact stopCurrentEntry_calls_not_start cfg _ now stOk c h
    · exact startNewEntry_calls_not_stop cfg extract lookup _ b recent now
        sOk cRes
  · intro hrun
    rw [htr, hshape]
    have hid : ∃ e,
        (adoptedState cfg (forceRestart s now) b rc).currentEntryId = some e := by
      cases hrc : rc with
      | some e2 =>
        exact ⟨e2.id, by simp [adoptedState, adoptRemote, hq, hrc]⟩
      | none =>
        have hsid : s.currentEntryId.isSome = true := by
          rcases hrun with h | h
          · exact h
          · rw [hrc] at h; simp at h
        obtain ⟨e, he⟩ := Option.isSome_iff_exists.mp hsid
        refine ⟨e, ?_⟩
        rw [forceRestart_of_some s now e he]
        simp [adoptedState, adoptRemote, hrc, he]
    obtain ⟨e, hide⟩ := hid
    refine ⟨e, ?_⟩
    rw [stopCurrentEntry_calls_of_some cfg _ now stOk e tk wk htok hws hide]
    simp

/-- C7 witness: a concrete transition from `main` to `feat/999999-y` with
entry 1 running issues a stop call in its tick. -/
theorem c7_stop_before_start_witness :
    ∃ e, RemoteCall.stopEntry e ∈
      (checkBranch cfgA (fun _ => none) (fun _ => none) steadyState
        (some "feat/999999-y") none [] 100 true (some 9) true).2 :=
  (c7_stop_before_start cfgA (fun _ => none) (fun _ => none) steadyState
      "feat/999999-y" none [] 100 true (some 9) true "token" 1 rfl rfl
      (by decide) (by decide) (by decide)).2.2 (Or.inl (by decide))

/-- A successful start (set-running update accepted, or create returning an
id) records the derived description and a running entry, and never touches
`currentBranch`. -/
theorem startNewEntry_success_state (cfg : Config)
    (extract lookup : String → Option String) (s : TrackerState)
    (branch : String) (recent : List RecentEntry) (now : Int) (nId : Nat)
    (tk : String) (wk : Nat)
    (htok : cfg.apiToken = some tk) (hws : cfg.workspaceId = some wk) :
    ((startNewEntry cfg extract lookup s branch recent now true
        (some nId)).1).currentDescription
      = deriveDescription extract lookup branch
    ∧ ((startNewEntry cfg extract lookup s branch recent now true
        (some nId)).1).currentBranch = s.currentBranch
    ∧ ((startNewEntry cfg extract lookup s branch recent now true
        (some nId)).1).currentEntryId.isSome = true := by
  simp only [startNewEntry, htok, hws]
  split
  · simp_all
  · split
    · split
      · simp
      · simp [createdState]
    · simp [createdState]

/-- A state whose `currentBranch` is already empty is a fixed point of the
force-restart adjustment. -/
theorem forceRestart_eq_of_branch_empty (s : TrackerState) (now : Int)
    (hcb : s.currentBranch = "") : forceRestart s now = s := by
  unfold forceRestart
  split
  · cases s
    simp only at hcb
    simp [hcb]
  · rfl

/-- With no api-token-visible remote entry and nothing believed running, the
branch-change step reduces to the query followed by the start. -/
theorem branchChangeStep_no_remote (cfg : Config)
    (extract lookup : String → Option String) (s1 : TrackerState)
    (b : String) (recent : List RecentEntry) (now : Int) (sOk : Bool)
    (cRes : Option Nat) (stOk : Bool)
    (hq : cfg.apiToken.isSome = true) (hnone : s1.currentEntryId = none) :
    branchChangeStep cfg extract lookup s1 b none recent now sOk cRes stOk =
      ((startNewEntry cfg extract lookup { s1 with currentBranch := b } b
          recent now sOk cRes).1,
        RemoteCall.getCurrentEntry ::
          (startNewEntry cfg extract lookup { s1 with currentBranch := b } b
            recent now sOk cRes).2) := by
  simp [branchChangeStep, adoptedState, adoptRemote, hq, stopCurrentEntry, hnone]

/-- Ending a break on a configured session with break entry `bId` running
and a saved pre-break branch stops the break entry first, re-evaluates the
observed branch `b`, and (when the restart succeeds) ends with the normal
derived description for `b` and `currentBranch = b`. -/
theorem endBreak_state (cfg : Config) (extract lookup : String → Option String)
    (s : TrackerState) (now : Int) (ok : Bool) (b : String)
    (recent : List RecentEntry) (bId nId : Nat) (tk : String) (wk : Nat)
    (htok : cfg.apiToken = some tk) (hws : cfg.workspaceId = some wk)
    (hid : s.currentEntryId = some bId) (hpb : s.preBreakBranch ≠ "")
    (hb : b ≠ "") :
    (∃ rest, (endBreak cfg extract lookup s now ok (some b) none recent true
        (some nId)).2 = RemoteCall.stopEntry bId :: rest)
    ∧ (endBreak cfg extract lookup s now ok (some b) none recent true
        (some nId)).1.currentDescription = deriveDescription extract lookup b
    ∧ (endBreak cfg extract lookup s now ok (some b) none recent true
        (some nId)).1.currentBranch = b := by
  have hq : cfg.apiToken.isSome = true := by simp [htok]
  have hstop : stopCurrentEntry cfg s now ok =
      ({ s with
          lastStoppedEntryId := some bId
          lastStoppedDescription := s.currentDescription
          lastStoppedTime := now
          currentEntryId := none
          currentDescription := "" },
        [RemoteCall.stopEntry bId]) := by
    simp [stopCurrentEntry, hid, htok, hws]
  have heb : endBreak cfg extract lookup s now ok (some b) none recent true
      (some nId) =
      (let s3 : TrackerState := { s with
          lastStoppedEntryId := some bId
          lastStoppedDescription := s.currentDescription
          lastStoppedTime := now
          currentEntryId := none
          currentDescription := ""
          isOnBreak := false
          isTracking := true
          currentBranch := "" }
       let checked := checkBranch cfg extract lookup s3 (some b) none recent
          now true (some nId) ok
       ({ checked.1 with
            preBreakEntryId := none
            preBreakDescription := ""
            preBreakBranch := "" },
         RemoteCall.stopEntry bId :: checked.2)) := by
    simp [endBreak, hstop, htok, hws, hpb]
  rw [heb]
  simp only []
  rw [checkBranch_transition cfg extract lookup _ b none recent now true
    (some nId) ok rfl hb (by simpa using hb)]
  rw [forceRestart_eq_of_branch_empty _ now rfl]
  rw [branchChangeStep_no_remote cfg extract lookup _ b recent now true
    (some nId) ok hq rfl]
  have hstart := startNewEntry_success_state cfg extract lookup
    ({ s with
        lastStoppedEntryId := some bId
        lastStoppedDescription := s.currentDescription
        lastStoppedTime := now
        currentEntryId := none
        currentDescription := ""
        isOnBreak := false
        isTracking := true
        currentBranch := b }) b recent now nId tk wk htok hws
  exact ⟨⟨_, rfl⟩, hstart.1, hstart.2.1⟩

/-- C4: starting a break while tracking a branch with entry E1 running and
then ending the break gives: E1 stopped before the break entry is created
(the break tick's call list is exactly stop-then-create); the break entry
created non-billable with no project and no tags; the break entry stopped
before the branch re-evaluation (the end tick's call list starts with its
stop); and, when the restart succeeds, the post-break description equal to
the normal derivation for the branch, which is again the current branch. -/
theorem c4_break_round_trip (cfg : Config)
    (extract lookup : String → Option String) (s : TrackerState)
    (e1 bId nId : Nat) (bt : String) (recent : List RecentEntry)
    (now1 now2 : Int) (ok1 ok2 : Bool) (tk : String) (wk : Nat)
    (htok : cfg.apiToken = some tk) (hws : cfg.workspaceId = some wk)
    (he : s.currentEntryId = some e1) (hbr : s.currentBranch ≠ "") :
    (startBreak cfg s (some bt) now1 ok1 (some bId)).2 =
      [RemoteCall.stopEntry e1,
        RemoteCall.create (stripEmojiDescription bt) false none []]
    ∧ (∃ rest, (endBreak cfg extract lookup
        (startBreak cfg s (some bt) now1 ok1 (some bId)).1 now2 ok2
        (some s.currentBranch) none recent true (some nId)).2 =
          RemoteCall.stopEntry bId :: rest)
    ∧ (endBreak cfg extract lookup
        (startBreak cfg s (some bt) now1 ok1 (some bId)).1 now2 ok2
        (some s.currentBranch) none recent true (some nId)).1.currentDescription
      = deriveDescription extract lookup s.currentBranch
    ∧ (endBreak cfg extract lookup
        (startBreak cfg s (some bt) now1 ok1 (some bId)).1 now2 ok2
        (some s.currentBranch) none recent true (some nId)).1.currentBranch
      = s.currentBranch := by
  have hsb : startBreak cfg s (some bt) now1 ok1 (some bId) =
      ({ s with
          preBreakEntryId := some e1
          preBreakDescription := s.currentDescription
          preBreakBranch := s.currentBranch
          lastStoppedEntryId := some e1
          lastStoppedDescription := s.currentDescription
          lastStoppedTime := now1
          currentEntryId := some bId
          currentDescription := stripEmojiDescription bt
          isOnBreak := true
          isTracking := false },
        [RemoteCall.stopEntry e1,
          RemoteCall.create (stripEmojiDescription bt) false none []]) := by
    simp [startBreak, stopCurrentEntry, he, htok, hws]
  rw [hsb]
  have hend := endBreak_state cfg extract lookup
    ({ s with
        preBreakEntryId := some e1
        preBreakDescription := s.currentDescription
        preBreakBranch := s.currentBranch
        lastStoppedEntryId := some e1
        lastStoppedDescription := s.currentDescription
        lastStoppedTime := now1
        currentEntryId := some bId
        currentDescription := stripEmojiDescription bt
        isOnBreak := true
        isTracking := false }) now2 ok2 s.currentBranch recent bId nId tk wk
    htok hws rfl hbr hbr
  exact ⟨rfl, hend.1, hend.2.1, hend.2.2⟩

/-- C4 witness: a concrete break round trip on branch `feat/123456-x` with
entry 1 running: the break tick stops entry 1 then creates the non-billable
break entry, the end tick stops break entry 2 first, and the post-break
description is the normal derivation `[123456] feat/123456-x`. -/
theorem c4_break_round_trip_witness :
    ((startBreak cfgA trackingFeatState
        (some "x Coffee Break") 1000 true (some 2)).2 =
      [RemoteCall.stopEntry 1,
        RemoteCall.create (stripEmojiDescription "x Coffee Break") false none []])
    ∧ (endBreak cfgA defaultExtract (fun _ => none)
        (startBreak cfgA trackingFeatState
          (some "x Coffee Break") 1000 true (some 2)).1 2000 true
        (some "feat/123456-x") none [] true
        (some 3)).1.currentDescription
      = deriveDescription defaultExtract (fun _ => none) "feat/123456-x" :=
  have h := c4_break_round_trip cfgA defaultExtract (fun _ => none)
    trackingFeatState
    1 2 3 "x Coffee Break" [] 1000 2000 true true "token" 1 rfl rfl rfl
    (by decide)
  ⟨h.1, h.2.2.1⟩

/-- The freshly constructed session satisfies the description pairing. -/
theorem initialState_descInvariant (now : Int) :
    descInvariant (initialState now) := fun _ => rfl

/-- Stopping preserves the description pairing (clearing sets both). -/
theorem stopCurrentEntry_descInvariant (cfg : Config) (s : TrackerState)
    (now : Int) (ok : Bool) (h : descInvariant s) :
    descInvariant (stopCurrentEntry cfg s now ok).1 := by
  unfold stopCurrentEntry
  split
  · exact h
  · split
    · exact h
    · intro _
      rfl

/-- The create outcome preserves the description pairing. -/
theorem createdState_descInvariant (s : TrackerState) (d : String)
    (r : Option Nat) (h : descInvariant s) :
    descInvariant (createdState s d r) := by
  cases r
  · exact h
  · intro hc
    cases hc

/-- Starting preserves the description pairing (every successful path sets
both fields together; failures leave the state untouched). -/
theorem startNewEntry_descInvariant (cfg : Config)
    (extract lookup : String → Option String) (s : TrackerState)
    (branch : String) (recent : List RecentEntry) (now : Int) (sOk : Bool)
    (cRes : Option Nat) (h : descInvariant s) :
    descInvariant (startNewEntry cfg extract lookup s branch recent now sOk
      cRes).1 := by
  unfold startNewEntry
  split
  · exact h
  · dsimp only
    split <;> try split <;> try split
    all_goals first
      | exact createdState_descInvariant _ _ _ h
      | (intro hc; cases hc)

/-- Adoption preserves the description pairing (it installs a running
id). -/
theorem adoptRemote_descInvariant (s : TrackerState) (rc : Option Entry)
    (h : descInvariant s) : descInvariant (adoptRemote s rc) := by
  cases rc
  · exact h
  · intro hc
    cases hc

/-- The force-restart adjustment preserves the description pairing. -/
theorem forceRestart_descInvariant (s : TrackerState) (now : Int)
    (h : descInvariant s) : descInvariant (forceRestart s now) := by
  unfold forceRestart
  split
  · exact fun hc => h hc
  · exact h

/-- The branch-change step preserves the description pairing. -/
theorem branchChangeStep_descInvariant (cfg : Config)
    (extract lookup : String → Option String) (s1 : TrackerState)
    (b : String) (rc : Option Entry) (recent : List RecentEntry) (now : Int)
    (sOk : Bool) (cRes : Option Nat) (stOk : Bool) (h : descInvariant s1) :
    descInvariant (branchChangeStep cfg extract lookup s1 b rc recent now
      sOk cRes stOk).1 := by
  unfold branchChangeStep
  exact startNewEntry_descInvariant _ _ _ _ _ _ _ _ _
    (stopCurrentEntry_descInvariant _ _ _ _
      (fun hc => adoptRemote_descInvariant s1 _ h hc))

/-- A branch-check tick preserves the description pairing. -/
theorem checkBranch_descInvariant (cfg : Config)
    (extract lookup : String → Option String) (s : TrackerState)
    (bo : Option String) (rc : Option Entry) (recent : List RecentEntry)
    (now : Int) (sOk : Bool) (cRes : Option Nat) (stOk : Bool)
    (h : descInvariant s) :
    descInvariant (checkBranch cfg extract lookup s bo rc recent now sOk
      cRes stOk).1 := by
  unfold checkBranch
  split
  · exact h
  · split
    · split
      · exact stopCurrentEntry_descInvariant _ _ _ _ h
      · exact h
    · split
      · split
        · exact stopCurrentEntry_descInvariant _ _ _ _ h
        · exact h
      · split
        · exact h
        · dsimp only
          split
          · exact forceRestart_descInvariant _ _ h
          · exact branchChangeStep_descInvariant _ _ _ _ _ _ _ _ _ _ _
              (forceRestart_descInvariant _ _ h)

/-- An idle-check tick preserves the description pairing. -/
theorem checkIdle_descInvariant (cfg : Config) (s : TrackerState)
    (now : Int) (ok : Bool) (h : descInvariant s) :
    descInvariant (checkIdle cfg s now ok).1 := by
  unfold checkIdle
  split
  · exact stopCurrentEntry_descInvariant _ _ _ _ h
  · exact h

/-- Starting a break preserves the description pairing. -/
theorem startBreak_descInvariant (cfg : Config) (s : TrackerState)
    (bt : Option String) (now : Int) (ok : Bool) (cRes : Option Nat)
    (h : descInvariant s) :
    descInvariant (startBreak cfg s bt now ok cRes).1 := by
  unfold startBreak
  split
  · exact h
  · split
    · exact h
    · split
      · intro hc
        cases hc
      · exact stopCurrentEntry_descInvariant _ _ _ _ (fun hc => h hc)

/-- Ending a break preserves the description pairing. -/
theorem endBreak_descInvariant (cfg : Config)
    (extract lookup : String → Option String) (s : TrackerState) (now : Int)
    (ok : Bool) (bo : Option String) (rc : Option Entry)
    (recent : List RecentEntry) (sOk : Bool) (cRes : Option Nat)
    (h : descInvariant s) :
    descInvariant (endBreak cfg extract lookup s now ok bo rc recent sOk
      cRes).1 := by
  unfold endBreak
  split
  · exact h
  · dsimp only
    split
    · intro hc
      exact stopCurrentEntry_descInvariant _ _ _ _ h hc
    · intro hc
      refine checkBranch_descInvariant cfg extract lookup _ bo rc recent now
        sOk cRes ok ?_ hc
      intro hc'
      exact stopCurrentEntry_descInvariant cfg s now ok h hc'

/-- C10: in every state reachable through the session's operations, a null
`currentEntryId` comes with an empty `currentDescription`: the initial state
satisfies the pairing and every operation of the reconciliation core
(stop, start, branch-check tick with its remote adoption, idle-check tick,
break start, break end) preserves it. -/
theorem c10_description_invariant :
    (∀ now : Int, descInvariant (initialState now))
    ∧ (∀ (cfg : Config) (s : TrackerState) (now : Int) (ok : Bool),
        descInvariant s → descInvariant (stopCurrentEntry cfg s now ok).1)
    ∧ (∀ (cfg : Config) (extract lookup : String → Option String)
        (s : TrackerState) (branch : String) (recent : List RecentEntry)
        (now : Int) (sOk : Bool) (cRes : Option Nat),
        descInvariant s →
        descInvariant (startNewEntry cfg extract lookup s branch recent now
          sOk cRes).1)
    ∧ (∀ (cfg : Config) (extract lookup : String → Option String)
        (s : TrackerState) (bo : Option String) (rc : Option Entry)
        (recent : List RecentEntry) (now : Int) (sOk : Bool)
        (cRes : Option Nat) (stOk : Bool),
        descInvariant s →
        descInvariant (checkBranch cfg extract lookup s bo rc recent now sOk
          cRes stOk).1)
    ∧ (∀ (cfg : Config) (s : TrackerState) (now : Int) (ok : Bool),
        descInvariant s → descInvariant (checkIdle cfg s now ok).1)
    ∧ (∀ (cfg : Config) (s : TrackerState) (bt : Option String) (now : Int)
        (ok : Bool) (cRes : Option Nat),
        descInvariant s → descInvariant (startBreak cfg s bt now ok cRes).1)
    ∧ (∀ (cfg : Config) (extract lookup : String → Option String)
        (s : TrackerState) (now : Int) (ok : Bool) (bo : Option String)
        (rc : Option Entry) (recent : List RecentEntry) (sOk : Bool)
        (cRes : Option Nat),
        descInvariant s →
        descInvariant (endBreak cfg extract lookup s now ok bo rc recent sOk
          cRes).1) :=
  ⟨initialState_descInvariant,
    stopCurrentEntry_descInvariant,
    startNewEntry_descInvariant,
    checkBranch_descInvariant,
    checkIdle_descInvariant,
    startBreak_descInvariant,
    endBreak_descInvariant⟩

/-- C10 witness: the pairing holds in the initial state and after a
concrete stop of the running `main` session. -/
theorem c10_description_invariant_witness :
    descInvariant (initialState 0)
    ∧ descInvariant ((stopCurrentEntry cfgA steadyState 10 true).1) :=
  ⟨c10_description_invariant.1 0,
    c10_description_invariant.2.1 cfgA steadyState 10 true
      (by intro hc; exact absurd hc (by decide))⟩

end TogglTrack

